import Mathlib

/-!
Verification of the session-engine core of the `theadventuregame` repository:
a shallow embedding, in Lean 4, of the per-player state machine and its
cooperating subsystems (movement resolver, creation wizard, combat engine,
command dispatcher) as implemented in `src/server/src`, together with
theorems settling the specification's claims about them.

The embedding models the persistent store (`db/repo.ts` / the SQLite
schema) as association lists of records, the transient per-user session
and wizard scratch store (`state/store.ts`) and the active-battle registry
(`game/combatState.ts`) as association lists inside a `GameState`, and
each handler as a pure function from state and input to state and a list
of emitted socket events.  Randomness (dice rolls, random indices) is
passed in explicitly; the recurring combat timer is modelled by the tick
body as a function, with presence in the battle registry standing for a
live timer.
-/

namespace AdventureGame

/-! ## Data model (`types/index.ts`, `db/schema.sql`) -/

/-- The closed mode enumeration of `User.state` in `types/index.ts`,
extended with the two extra wizard states (`CREATING_OBJ_SUPPLY_TYPE`,
`CREATING_OBJ_VERB_CONFIRM`) that `handlers/creation.ts` stores and
matches on. -/
inductive UserState
  | IDLE
  | CREATING_ROOM_TITLE
  | CREATING_ROOM_DESC
  | CREATING_ROOM_MOOD
  | CREATING_ROOM_SHROUD
  | CREATING_OBJ_CONFIRM
  | CREATING_OBJ_NAME
  | CREATING_OBJ_DESC
  | CREATING_OBJ_VERB
  | CREATING_OBJ_SUCCESS_MSG
  | CREATING_OBJ_TYPE
  | CREATING_OBJ_VALUE
  | CREATING_OBJ_CONTENTS
  | CREATING_OBJ_ENEMY_STATS
  | CREATING_OBJ_REQUIREMENT
  | CREATING_OBJ_SUPPLY_TYPE
  | CREATING_OBJ_VERB_CONFIRM
  | GENERATING_ANIMATIONS
  | COMBAT
  deriving DecidableEq, Repr

/-- The string literal stored in the database for each mode (the TS type is
a union of string literals; the dispatcher tests it with
`state.startsWith('CREATING_')`). -/
def UserState.toDbString : UserState → String
  | .IDLE => "IDLE"
  | .CREATING_ROOM_TITLE => "CREATING_ROOM_TITLE"
  | .CREATING_ROOM_DESC => "CREATING_ROOM_DESC"
  | .CREATING_ROOM_MOOD => "CREATING_ROOM_MOOD"
  | .CREATING_ROOM_SHROUD => "CREATING_ROOM_SHROUD"
  | .CREATING_OBJ_CONFIRM => "CREATING_OBJ_CONFIRM"
  | .CREATING_OBJ_NAME => "CREATING_OBJ_NAME"
  | .CREATING_OBJ_DESC => "CREATING_OBJ_DESC"
  | .CREATING_OBJ_VERB => "CREATING_OBJ_VERB"
  | .CREATING_OBJ_SUCCESS_MSG => "CREATING_OBJ_SUCCESS_MSG"
  | .CREATING_OBJ_TYPE => "CREATING_OBJ_TYPE"
  | .CREATING_OBJ_VALUE => "CREATING_OBJ_VALUE"
  | .CREATING_OBJ_CONTENTS => "CREATING_OBJ_CONTENTS"
  | .CREATING_OBJ_ENEMY_STATS => "CREATING_OBJ_ENEMY_STATS"
  | .CREATING_OBJ_REQUIREMENT => "CREATING_OBJ_REQUIREMENT"
  | .CREATING_OBJ_SUPPLY_TYPE => "CREATING_OBJ_SUPPLY_TYPE"
  | .CREATING_OBJ_VERB_CONFIRM => "CREATING_OBJ_VERB_CONFIRM"
  | .GENERATING_ANIMATIONS => "GENERATING_ANIMATIONS"
  | .COMBAT => "COMBAT"

/-- `effect_type` of an item (`types/index.ts`). -/
inductive EffectType
  | GOLD
  | HEAL
  | DAMAGE
  | NONE
  | ITEM
  deriving DecidableEq, Repr

/-- A row of the `users` table. -/
structure UserRec where
  id : String
  handle : String
  server_code : String
  strength : Int
  hp : Int
  max_hp : Int
  gold : Int
  current_q : Int
  current_r : Int
  state : UserState
  deriving DecidableEq, Repr

/-- A row of the `rooms` table. -/
structure RoomRec where
  id : String
  q : Int
  r : Int
  server_code : String
  title : String
  description : String
  shroud_level : Int
  created_by : String
  symbol : Option String := none
  deriving DecidableEq, Repr

/-- A row of the `items` table.  `is_infinite` is the flag read by
`handlers/interaction.ts` (`item.is_infinite`) and written by the wizard
(`is_infinite: tempItemData.isInfinite ? 1 : 0`); it is stored as a
Boolean here. -/
structure ItemRec where
  id : String
  room_id : Option String
  owner_id : Option String
  server_code : String
  name : String
  description : String
  success_message : String
  interact_verb : String
  effect_type : EffectType
  effect_value : Int
  is_hidden : Int
  required_item_id : Option String
  enemy_hp : Int
  enemy_max_hp : Int
  enemy_attack : Int
  xp_value : Int
  is_infinite : Bool := false
  deriving DecidableEq, Repr

/-- A row of the `animations` table (frames and fps elided: no claim
depends on them). -/
structure AnimRec where
  id : String
  room_id : Option String
  object_id : Option String
  type : String
  deriving DecidableEq, Repr

/-- The persistent store (`db/repo.ts` over SQLite), with a counter for
fresh row identifiers standing in for `uuidv4()`. -/
structure Store where
  users : List UserRec
  rooms : List RoomRec
  items : List ItemRec
  animations : List AnimRec
  nextId : Nat := 0
  deriving DecidableEq, Repr

/-! ## JavaScript string primitives

The handlers normalise input with `trim`, `toLowerCase`,
`split(/\s+/)` and `startsWith`; they are modelled here directly on the
character list of a string so that concrete runs reduce by evaluation. -/

/-- JavaScript `String.prototype.trim` on a character list. -/
def jsTrimList (cs : List Char) : List Char :=
  ((cs.dropWhile Char.isWhitespace).reverse.dropWhile Char.isWhitespace).reverse

/-- JavaScript `String.prototype.trim`. -/
def jsTrim (s : String) : String :=
  String.mk (jsTrimList s.data)

/-- JavaScript `String.prototype.toLowerCase` (ASCII, which covers every
literal the handlers compare against). -/
def jsToLower (s : String) : String :=
  String.mk (s.data.map Char.toLower)

/-- JavaScript `String.prototype.startsWith`. -/
def jsStartsWith (s pre : String) : Bool :=
  pre.data.isPrefixOf s.data

/-- Split a character list on runs of whitespace, dropping empty pieces. -/
def splitWsAux : List Char → List Char → List (List Char)
  | [], acc => if acc.isEmpty then [] else [acc.reverse]
  | c :: cs, acc =>
    if c.isWhitespace then
      if acc.isEmpty then splitWsAux cs [] else acc.reverse :: splitWsAux cs []
    else splitWsAux cs (c :: acc)

/-- `String.prototype.split(/\s+/)` as the handlers use it (on trimmed
input, where it yields the non-empty whitespace-separated words). -/
def jsWords (s : String) : List String :=
  (splitWsAux s.data []).map String.mk

/-! ## Repository operations (`db/repo.ts`) -/

def getUser (st : Store) (id : String) : Option UserRec :=
  st.users.find? (fun u => u.id == id)

def updateUserPosition (st : Store) (id : String) (q r : Int) : Store :=
  { st with users := st.users.map (fun u =>
      if u.id == id then { u with current_q := q, current_r := r } else u) }

def updateUserState (st : Store) (id : String) (s : UserState) : Store :=
  { st with users := st.users.map (fun u =>
      if u.id == id then { u with state := s } else u) }

/-- `updateUserStats` restricted to the `hp` field (the TS function takes a
partial record; the handlers under verification only ever pass `hp` or
`gold`, each alone). -/
def updateUserHp (st : Store) (id : String) (hp : Int) : Store :=
  { st with users := st.users.map (fun u =>
      if u.id == id then { u with hp := hp } else u) }

/-- `updateUserStats` restricted to the `gold` field. -/
def updateUserGold (st : Store) (id : String) (gold : Int) : Store :=
  { st with users := st.users.map (fun u =>
      if u.id == id then { u with gold := gold } else u) }

def getRoom (st : Store) (q r : Int) (serverCode : String) : Option RoomRec :=
  st.rooms.find? (fun room => room.q == q && room.r == r && room.server_code == serverCode)

/-- `SELECT * FROM items WHERE room_id = ? AND owner_id IS NULL AND server_code = ?` -/
def getRoomItems (st : Store) (roomId : String) (serverCode : String) : List ItemRec :=
  st.items.filter (fun i =>
    i.room_id == some roomId && i.owner_id == none && i.server_code == serverCode)

def getItem (st : Store) (itemId : String) : Option ItemRec :=
  st.items.find? (fun i => i.id == itemId)

/-- `SELECT * FROM items WHERE room_id = ? AND LOWER(name) = LOWER(?) AND
owner_id IS NULL AND server_code = ?` -/
def getItemByName (st : Store) (roomId name serverCode : String) : Option ItemRec :=
  st.items.find? (fun i =>
    i.room_id == some roomId && jsToLower i.name == jsToLower name &&
    i.owner_id == none && i.server_code == serverCode)

def getUserInventory (st : Store) (userId serverCode : String) : List ItemRec :=
  st.items.filter (fun i => i.owner_id == some userId && i.server_code == serverCode)

def setItemOwner (st : Store) (itemId : String) (ownerId roomId : Option String) : Store :=
  { st with items := st.items.map (fun i =>
      if i.id == itemId then { i with owner_id := ownerId, room_id := roomId } else i) }

def updateItemEnemyHp (st : Store) (itemId : String) (hp : Int) : Store :=
  { st with items := st.items.map (fun i =>
      if i.id == itemId then { i with enemy_hp := hp } else i) }

/-- `deleteItem`: deletes animations referencing the item, clears
`required_item_id` references to it, then deletes the row. -/
def deleteItem (st : Store) (itemId : String) : Store :=
  { st with
    animations := st.animations.filter (fun a => a.object_id != some itemId)
    items := (st.items.map (fun i =>
        if i.required_item_id == some itemId then { i with required_item_id := none } else i)
      ).filter (fun i => i.id != itemId) }

/-- `createItem`: inserts a row under a fresh identifier and returns it. -/
def createItem (st : Store) (item : ItemRec) : Store × ItemRec :=
  let newItem := { item with id := "item-" ++ toString st.nextId }
  ({ st with items := st.items ++ [newItem], nextId := st.nextId + 1 }, newItem)

/-- Modelled from the spec: `cloneItemForUser` lives in the repository
module, whose full source is not present (its older copy lacks the
infinite-item support its caller `handlers/interaction.ts` uses).  Per the
spec, an infinite item is "a template pickup cloned per acquiring user
rather than moved/owned exclusively": the clone is a fresh row with the
same fields, owned by the acquiring user and not placed in any room, the
template row being left untouched. -/
def pickupClone (st : Store) (item : ItemRec) (userId : String) : ItemRec :=
  { item with
    id := "item-" ++ toString st.nextId
    owner_id := some userId
    room_id := (none : Option String) }

/-- Modelled from the spec: the store mutation of `cloneItemForUser` —
append the clone as a fresh row, leaving the template untouched. -/
def cloneItemForUser (st : Store) (item : ItemRec) (userId : String) : Store :=
  { st with items := st.items ++ [pickupClone st item userId], nextId := st.nextId + 1 }

def getItemAnimation (st : Store) (itemId : String) (type : String) : Option AnimRec :=
  st.animations.find? (fun a => a.object_id == some itemId && a.type == type)

/-! ## Session, wizard scratch and battle registries -/

/-- Wizard scratch data for a room being authored (`TempRoomData` in
`state/store.ts`, reconstructed from its uses in `handlers/creation.ts`). -/
structure TempRoomData where
  q : Int
  r : Int
  title : Option String := none
  description : Option String := none
  mood : Option String := none
  deriving DecidableEq, Repr

/-- The wizard's object-type menu (`handleObjType` in `creation.ts`). -/
inductive InteractionType
  | FLAVOR
  | TREASURE
  | BUFF_TRAP
  | PICKUP
  | ENEMY
  | GATE
  deriving DecidableEq, Repr

/-- Wizard scratch data for an object being authored (`TempItemData` in
`state/store.ts`, reconstructed from its uses in `handlers/creation.ts`). -/
structure TempItemData where
  roomId : String
  name : Option String := none
  description : Option String := none
  verb : Option String := none
  successMessage : Option String := none
  interactionType : Option InteractionType := none
  effectValue : Option Int := none
  enemyHp : Option Int := none
  enemyMaxHp : Option Int := none
  enemyAttack : Option Int := none
  xpValue : Option Int := none
  isInfinite : Option Bool := none
  requiredItemId : Option String := none
  requiredItemName : Option String := none
  deriving DecidableEq, Repr

/-- An entry of the active-battle registry (`game/combatState.ts`): its
presence in the registry stands for the live recurring timer held in the
`interval` field. -/
structure BattleRec where
  socketId : String
  enemyId : String
  deriving DecidableEq, Repr

/-- The whole in-memory server state: the persistent store plus the three
transient registries (socket sessions, wizard scratch, active battles). -/
structure GameState where
  store : Store
  sessions : List (String × String)
  tempRoom : List (String × TempRoomData)
  tempItem : List (String × TempItemData)
  battles : List (String × BattleRec)
  deriving DecidableEq, Repr

/-- Modelled from the spec: `setSession` of the absent `state/store.ts`
binds a socket identifier to a user identifier. -/
def setSession (gs : GameState) (socketId userId : String) : GameState :=
  { gs with sessions := (socketId, userId) :: gs.sessions.filter (fun p => p.1 != socketId) }

/-- Modelled from the spec: `getSession` of the absent `state/store.ts`
looks up the user bound to a socket. -/
def getSession (gs : GameState) (socketId : String) : Option String :=
  (gs.sessions.find? (fun p => p.1 == socketId)).map Prod.snd

/-- Modelled from the spec: `setTempRoomData` of the absent `state/store.ts`. -/
def setTempRoomData (gs : GameState) (userId : String) (d : TempRoomData) : GameState :=
  { gs with tempRoom := (userId, d) :: gs.tempRoom.filter (fun p => p.1 != userId) }

/-- Modelled from the spec: `deleteTempRoomData` of the absent `state/store.ts`. -/
def deleteTempRoomData (gs : GameState) (userId : String) : GameState :=
  { gs with tempRoom := gs.tempRoom.filter (fun p => p.1 != userId) }

/-- Modelled from the spec: `getTempItemData` of the absent `state/store.ts`. -/
def getTempItemData (gs : GameState) (userId : String) : Option TempItemData :=
  (gs.tempItem.find? (fun p => p.1 == userId)).map Prod.snd

/-- Modelled from the spec: `setTempItemData` of the absent `state/store.ts`. -/
def setTempItemData (gs : GameState) (userId : String) (d : TempItemData) : GameState :=
  { gs with tempItem := (userId, d) :: gs.tempItem.filter (fun p => p.1 != userId) }

/-- Modelled from the spec: `deleteTempItemData` of the absent `state/store.ts`. -/
def deleteTempItemData (gs : GameState) (userId : String) : GameState :=
  { gs with tempItem := gs.tempItem.filter (fun p => p.1 != userId) }

/-- `combatState.isInCombat` -/
def isInCombat (gs : GameState) (userId : String) : Bool :=
  gs.battles.any (fun p => p.1 == userId)

/-- `combatState.startBattle` -/
def startBattle (gs : GameState) (userId socketId enemyId : String) : GameState :=
  { gs with battles :=
      (userId, ⟨socketId, enemyId⟩) :: gs.battles.filter (fun p => p.1 != userId) }

/-- `combatState.endBattle`: clears the interval (the timer dies with the
registry entry in this model) and deletes the entry. -/
def endBattle (gs : GameState) (userId : String) : GameState :=
  { gs with battles := gs.battles.filter (fun p => p.1 != userId) }

/-! ## Socket events -/

inductive LogType
  | info
  | error
  | chat
  | prompt
  deriving DecidableEq, Repr

inductive RollSource
  | player
  | enemy
  | tie
  deriving DecidableEq, Repr

/-- Payload of a `combat:update` event. -/
structure TickUpdate where
  playerHp : Int
  playerMaxHp : Int
  enemyHp : Int
  enemyMaxHp : Int
  playerRoll : Int
  enemyRoll : Int
  damage : Int
  source : RollSource
  deriving DecidableEq, Repr

/-- The outbound realtime events a handler emits, in order. -/
inductive Event
  | gameLog (text : String) (ltype : LogType)
  | stateUpdate
  | animationPlay (animId : String)
  | combatUpdate (payload : TickUpdate)
  | combatEnd (result : String) (lootGold : Option Int)
  deriving DecidableEq, Repr

/-- Result of a text-command handler: whether it claimed the command, the
successor state, and the events emitted (`{ handled, shouldEmitState }`
with the dispatcher's follow-up `state:update` emission folded in as a
`stateUpdate` event). -/
structure HandlerResult where
  handled : Bool
  gs : GameState
  events : List Event
  deriving DecidableEq, Repr

/-! ## Movement resolver (`handlers/movement.ts`) -/

inductive Direction
  | n
  | s
  | ne
  | se
  | nw
  | sw
  deriving DecidableEq, Repr

def directionOfString (s : String) : Option Direction :=
  if s = "n" then some .n
  else if s = "s" then some .s
  else if s = "ne" then some .ne
  else if s = "se" then some .se
  else if s = "nw" then some .nw
  else if s = "sw" then some .sw
  else none

/-- `parseDirection`: trim and lowercase, take the first word — or the
second when the first is an explicit `go` and a second word exists — and
match it against the six directions. -/
def parseDirection (raw : String) : Option Direction :=
  let trimmed := jsToLower (jsTrim raw)
  if trimmed = "" then none
  else
    let parts := jsWords trimmed
    let dir := match parts with
      | [] => ""
      | [p0] => p0
      | p0 :: p1 :: _ => if p0 = "go" then p1 else p0
    directionOfString dir

/-- `moveAxial`: the fixed direction-to-offset map on axial hex
coordinates. -/
def moveAxial (q r : Int) (dir : Direction) : Int × Int :=
  match dir with
  | .n => (q, r - 1)
  | .s => (q, r + 1)
  | .ne => (q + 1, r - 1)
  | .sw => (q - 1, r + 1)
  | .nw => (q - 1, r)
  | .se => (q + 1, r)

/-- `handleMove`: rejects any input while the user is not `IDLE`; otherwise
parses a direction (unparsable input is left unhandled), applies the
offset, persists the position unconditionally, and either enters the
creation wizard (destination unexplored) or emits the new room state. -/
def handleMove (gs : GameState) (user : UserRec) (input : String) : HandlerResult :=
  if user.state ≠ .IDLE then
    { handled := true
      gs := gs
      events := [.gameLog ("Cannot move while in " ++ user.state.toDbString ++ " state.") .error] }
  else
    match parseDirection input with
    | none => { handled := false, gs := gs, events := [] }
    | some dir =>
      let (newQ, newR) := moveAxial user.current_q user.current_r dir
      let st1 := updateUserPosition gs.store user.id newQ newR
      match getRoom st1 newQ newR user.server_code with
      | none =>
        let st2 := updateUserState st1 user.id .CREATING_ROOM_TITLE
        let gs2 := setTempRoomData { gs with store := st2 } user.id { q := newQ, r := newR }
        { handled := true
          gs := gs2
          events := [.gameLog "What is this place called?" .prompt, .stateUpdate] }
      | some existingRoom =>
        let gs1 := { gs with store := st1 }
        let tapestryEvents :=
          match st1.animations.find? (fun a =>
              a.room_id == some existingRoom.id && a.type == "TAPESTRY") with
          | some anim => [Event.animationPlay anim.id]
          | none => []
        { handled := true
          gs := gs1
          events := tapestryEvents ++ [.stateUpdate] }

/-! ### C9: the direction-to-offset map and its inverse pairs -/

/-- C9: `moveAxial` implements exactly the offset map `n:(0,-1)`,
`s:(0,+1)`, `ne:(+1,-1)`, `sw:(-1,+1)`, `nw:(-1,0)`, `se:(+1,0)`, and for
every coordinate, a direction followed by its opposite (`n`/`s`,
`ne`/`sw`, `nw`/`se`, in either order) returns the original coordinate. -/
theorem moveAxial_offsets_and_inverses (q r : Int) :
    moveAxial q r .n = (q, r - 1) ∧
    moveAxial q r .s = (q, r + 1) ∧
    moveAxial q r .ne = (q + 1, r - 1) ∧
    moveAxial q r .sw = (q - 1, r + 1) ∧
    moveAxial q r .nw = (q - 1, r) ∧
    moveAxial q r .se = (q + 1, r) ∧
    (∀ d d' : Direction,
      (d = .n ∧ d' = .s) ∨ (d = .s ∧ d' = .n) ∨
      (d = .ne ∧ d' = .sw) ∨ (d = .sw ∧ d' = .ne) ∨
      (d = .nw ∧ d' = .se) ∨ (d = .se ∧ d' = .nw) →
      (moveAxial (moveAxial q r d).1 (moveAxial q r d).2 d') = (q, r)) := by
  refine ⟨rfl, rfl, rfl, rfl, rfl, rfl, ?_⟩
  rintro d d' (⟨rfl, rfl⟩ | ⟨rfl, rfl⟩ | ⟨rfl, rfl⟩ | ⟨rfl, rfl⟩ | ⟨rfl, rfl⟩ | ⟨rfl, rfl⟩) <;>
    simp [moveAxial]

/-- Witness for `moveAxial_offsets_and_inverses` at the concrete
coordinate `(2, -3)` and the pair `n`/`s`. -/
theorem moveAxial_offsets_and_inverses_witness :
    moveAxial 2 (-3) .n = (2, -4) ∧
    moveAxial (moveAxial 2 (-3) .n).1 (moveAxial 2 (-3) .n).2 .s = (2, -3) := by
  refine ⟨by decide, ?_⟩
  exact (moveAxial_offsets_and_inverses 2 (-3)).2.2.2.2.2.2 .n .s (Or.inl ⟨rfl, rfl⟩)

/-! ## Disconnect handling (`index.ts`, `socket.on('disconnect')`) -/

/-- A player at the origin in realm `srv`, idle. -/
def exPlayer : UserRec :=
  { id := "u1", handle := "alice", server_code := "srv", strength := 0,
    hp := 20, max_hp := 20, gold := 5, current_q := 0, current_r := 0, state := .IDLE }

/-- The same player while in combat mode. -/
def exCombatPlayer : UserRec := { exPlayer with state := .COMBAT }

/-- The genesis room of realm `srv`. -/
def exRoom : RoomRec :=
  { id := "r1", q := 0, r := 0, server_code := "srv", title := "The Crash Site",
    description := "Wreckage.", shroud_level := 0, created_by := "system" }

/-- A minimal game state for exercising the movement handler. -/
def exMoveGs : GameState :=
  { store := { users := [exPlayer], rooms := [exRoom], items := [], animations := [] }
    sessions := [("sock1", "u1")], tempRoom := [], tempItem := [], battles := [] }

/-- C3 counterexample: for a user in `COMBAT` mode and the input
`take sword`, which does not parse as a direction, `handleMove` claims the
command (`handled = true`, with a "Cannot move" error) instead of leaving
it unhandled — the claim that non-directional input falls through
regardless of the user's current mode is false at this input. -/
theorem handleMove_combat_claims_nondirectional :
    (handleMove exMoveGs exCombatPlayer "take sword").handled = true ∧
    parseDirection "take sword" = none := by
  decide

/-- C3 (amended): for a user not in `IDLE` mode, `handleMove` rejects
every command — directional or not — with an explanatory message and no
state change (`handled = true`); for a user in `IDLE` mode, input that
does not parse as one of the six directions (optionally prefixed by `go`)
is left unhandled (`handled = false`) with no state change, so it falls
through to the combat/interaction handlers. -/
theorem handleMove_reject_or_fallthrough (gs : GameState) (user : UserRec) (input : String) :
    (user.state ≠ .IDLE →
      (handleMove gs user input).handled = true ∧
      (handleMove gs user input).gs = gs) ∧
    (user.state = .IDLE → parseDirection input = none →
      (handleMove gs user input).handled = false ∧
      (handleMove gs user input).gs = gs) := by
  constructor
  · intro h
    simp only [handleMove, if_pos h]
    exact ⟨trivial, trivial⟩
  · intro h hp
    have h' : ¬ user.state ≠ UserState.IDLE := by simpa using h
    simp only [handleMove, if_neg h', hp]
    exact ⟨trivial, trivial⟩

/-- Witness for `handleMove_reject_or_fallthrough`: a combat-mode user's
command is claimed with no state change, and an idle user's gibberish
falls through. -/
theorem handleMove_reject_or_fallthrough_witness :
    (handleMove exMoveGs exCombatPlayer "dance wildly").handled = true ∧
    (handleMove exMoveGs exPlayer "xyzzy").handled = false :=
  ⟨((handleMove_reject_or_fallthrough exMoveGs exCombatPlayer "dance wildly").1
      (by decide)).1,
   ((handleMove_reject_or_fallthrough exMoveGs exPlayer "xyzzy").2
      (by decide) (by decide)).1⟩

/-! ## Combat engine (`handlers/combat.ts`) -/

/-- `Math.ceil(delta / 2)` for the non-negative integer `delta`. -/
def ceilHalf (delta : Nat) : Nat := (delta + 1) / 2

/-- The roll-and-resolve phase of one combat tick (`combat.ts`, the
`=== ROLL PHASE ===` and `=== RESOLVE PHASE ===` blocks plus the refetch
that builds the `combat:update` payload).  `d1` and `d2` are the two
`Math.floor(Math.random() * 6) + 1` die results, passed in explicitly. -/
def resolvePhase (st : Store) (u : UserRec) (e : ItemRec) (d1 d2 : Nat) : Store × TickUpdate :=
  let playerRoll : Int := (d1 : Int) + u.strength
  let enemyRoll : Int := (d2 : Int) + e.enemy_attack
  let delta : Nat := (playerRoll - enemyRoll).natAbs
  let resolved : Store × Int × RollSource :=
    if playerRoll > enemyRoll then
      let damage : Int := (ceilHalf delta : Nat) + 1
      let newEnemyHp := max 0 (e.enemy_hp - damage)
      (updateItemEnemyHp st e.id newEnemyHp, damage, .player)
    else if enemyRoll > playerRoll then
      let damage : Int := (ceilHalf delta : Nat)
      let newPlayerHp := max 0 (u.hp - damage)
      (updateUserHp st u.id newPlayerHp, damage, .enemy)
    else
      (st, 0, .tie)
  let st' := resolved.1
  let updatedEnemy := getItem st' e.id
  let updatedUser := (getUser st' u.id).getD u
  (st',
   { playerHp := updatedUser.hp
     playerMaxHp := updatedUser.max_hp
     enemyHp := match updatedEnemy with | some e' => e'.enemy_hp | none => 0
     enemyMaxHp := match updatedEnemy with | some e' => e'.enemy_max_hp | none => 0
     playerRoll := playerRoll
     enemyRoll := enemyRoll
     damage := resolved.2.1
     source := resolved.2.2 })

/-- `handlePlayerDeath`: restore HP to max, respawn at the origin, return
to `IDLE`; gold is untouched. -/
def handlePlayerDeath (st : Store) (user : UserRec) : Store × List Event :=
  let st1 := updateUserHp st user.id user.max_hp
  let st2 := updateUserPosition st1 user.id 0 0
  let st3 := updateUserState st2 user.id .IDLE
  (st3,
   [.gameLog "You have fallen. The world fades..." .error,
    .stateUpdate,
    .gameLog ("You awaken at The Crash Site. You have " ++ toString user.gold ++
      " gold remaining.") .info])

/-- One firing of the recurring combat timer started by `handleFight`
(the `setInterval` body in `combat.ts`): refetch user and enemy, resolve
the tick, emit `combat:update`, then apply the victory/defeat outcome. -/
def combatTick (gs : GameState) (userId enemyId : String) (d1 d2 : Nat) :
    GameState × List Event :=
  match getUser gs.store userId with
  | none => (endBattle gs userId, [])
  | some currentUser =>
    match getRoom gs.store currentUser.current_q currentUser.current_r
        currentUser.server_code with
    | none => (endBattle gs userId, [])
    | some currentRoom =>
      let currentRoomItems := getRoomItems gs.store currentRoom.id currentUser.server_code
      match currentRoomItems.find? (fun i => i.id == enemyId) with
      | none =>
        let gs1 := endBattle gs userId
        ({ gs1 with store := updateUserState gs1.store userId .IDLE }, [])
      | some currentEnemy =>
        if currentEnemy.enemy_hp ≤ 0 then
          let gs1 := endBattle gs userId
          ({ gs1 with store := updateUserState gs1.store userId .IDLE }, [])
        else
          let phase := resolvePhase gs.store currentUser currentEnemy d1 d2
          let st1 := phase.1
          let upd := phase.2
          let updatedEnemy := getItem st1 currentEnemy.id
          let updatedUser := (getUser st1 userId).getD currentUser
          let ev0 := [Event.combatUpdate upd]
          if (match updatedEnemy with
              | some e' => decide (e'.enemy_hp ≤ 0)
              | none => false) then
            let gs1 := endBattle { gs with store := st1 } userId
            let xpReward := if currentEnemy.xp_value == 0 then 10 else currentEnemy.xp_value
            let st2 := updateUserGold gs1.store userId (updatedUser.gold + xpReward)
            let st3 := deleteItem st2 currentEnemy.id
            let st4 := updateUserState st3 userId .IDLE
            ({ gs1 with store := st4 },
             ev0 ++
              [.gameLog ("You defeated the " ++ currentEnemy.name ++ "! Gained " ++
                  toString xpReward ++ " gold.") .info,
               .combatEnd "win" (some xpReward),
               .stateUpdate])
          else if updatedUser.hp ≤ 0 then
            let gs1 := endBattle { gs with store := st1 } userId
            let death := handlePlayerDeath gs1.store updatedUser
            ({ gs1 with store := death.1 },
             ev0 ++ [Event.combatEnd "loss" none] ++ death.2)
          else
            ({ gs with store := st1 }, ev0)

/-- Recogniser for `combat:end` events. -/
def isCombatEnd : Event → Bool
  | .combatEnd _ _ => true
  | _ => false

/-! ## Lookup-update lemmas for the store -/

theorem find?_map_key {α : Type} (key : α → String) (g : α → α)
    (hg : ∀ x, key (g x) = key x) (l : List α) (v : String) :
    (l.map g).find? (fun x => key x == v) = (l.find? (fun x => key x == v)).map g := by
  induction l with
  | nil => rfl
  | cons a t ih =>
    by_cases h : (key a == v) = true
    · simp [List.find?_cons, hg, h]
    · simp [List.find?_cons, hg, h, ih]

theorem getUser_updateUserHp (st : Store) (id : String) (hp : Int) (id' : String) :
    getUser (updateUserHp st id hp) id' =
      (getUser st id').map (fun u => if u.id == id then { u with hp := hp } else u) := by
  simp only [getUser, updateUserHp]
  exact find?_map_key UserRec.id _ (fun u => by by_cases h : (u.id == id) = true <;> simp [h]) _ _

theorem getUser_updateUserGold (st : Store) (id : String) (gold : Int) (id' : String) :
    getUser (updateUserGold st id gold) id' =
      (getUser st id').map (fun u => if u.id == id then { u with gold := gold } else u) := by
  simp only [getUser, updateUserGold]
  exact find?_map_key UserRec.id _ (fun u => by by_cases h : (u.id == id) = true <;> simp [h]) _ _

theorem getUser_updateUserState (st : Store) (id : String) (s : UserState) (id' : String) :
    getUser (updateUserState st id s) id' =
      (getUser st id').map (fun u => if u.id == id then { u with state := s } else u) := by
  simp only [getUser, updateUserState]
  exact find?_map_key UserRec.id _ (fun u => by by_cases h : (u.id == id) = true <;> simp [h]) _ _

theorem getUser_updateUserPosition (st : Store) (id : String) (q r : Int) (id' : String) :
    getUser (updateUserPosition st id q r) id' =
      (getUser st id').map
        (fun u => if u.id == id then { u with current_q := q, current_r := r } else u) := by
  simp only [getUser, updateUserPosition]
  exact find?_map_key UserRec.id _ (fun u => by by_cases h : (u.id == id) = true <;> simp [h]) _ _

theorem getItem_updateItemEnemyHp (st : Store) (id : String) (hp : Int) (id' : String) :
    getItem (updateItemEnemyHp st id hp) id' =
      (getItem st id').map (fun i => if i.id == id then { i with enemy_hp := hp } else i) := by
  simp only [getItem, updateItemEnemyHp]
  exact find?_map_key ItemRec.id _ (fun i => by by_cases h : (i.id == id) = true <;> simp [h]) _ _

/-- After `deleteItem`, the deleted identifier resolves to no row. -/
theorem getItem_deleteItem_self (st : Store) (id : String) :
    getItem (deleteItem st id) id = none := by
  simp only [getItem, deleteItem]
  rw [List.find?_eq_none]
  intro i hi
  have := (List.mem_filter.mp hi).2
  simp only [bne_iff_ne, ne_eq] at this
  simp [this]

/-- After `deleteItem`, no room-item query returns a row with the deleted
identifier. -/
theorem getRoomItems_deleteItem_self (st : Store) (id roomId serverCode : String) :
    ∀ i ∈ getRoomItems (deleteItem st id) roomId serverCode, i.id ≠ id := by
  intro i hi
  have hmem : i ∈ (deleteItem st id).items := List.mem_of_mem_filter hi
  have := (List.mem_filter.mp hmem).2
  simpa [bne_iff_ne] using this

theorem getUser_updateItemEnemyHp (st : Store) (id : String) (hp : Int) (id' : String) :
    getUser (updateItemEnemyHp st id hp) id' = getUser st id' := rfl

theorem getItem_updateUserHp (st : Store) (id : String) (hp : Int) (id' : String) :
    getItem (updateUserHp st id hp) id' = getItem st id' := rfl

theorem getItem_updateUserGold (st : Store) (id : String) (g : Int) (id' : String) :
    getItem (updateUserGold st id g) id' = getItem st id' := rfl

theorem getItem_updateUserState (st : Store) (id : String) (s : UserState) (id' : String) :
    getItem (updateUserState st id s) id' = getItem st id' := rfl

theorem getUser_deleteItem (st : Store) (id : String) (id' : String) :
    getUser (deleteItem st id) id' = getUser st id' := rfl

/-- An enemy item placed in the genesis room: a goblin with 10 HP,
attack 0 and an XP value of 50. -/
def exEnemy : ItemRec :=
  { id := "e1", room_id := some "r1", owner_id := none, server_code := "srv",
    name := "goblin", description := "A goblin.", success_message := "",
    interact_verb := "fight", effect_type := .NONE, effect_value := 0,
    is_hidden := 0, required_item_id := none, enemy_hp := 10,
    enemy_max_hp := 10, enemy_attack := 0, xp_value := 50 }

/-- A store with the combat-mode player and the goblin in the genesis
room. -/
def exCombatStore : Store :=
  { users := [exCombatPlayer], rooms := [exRoom], items := [exEnemy], animations := [] }

/-! ### C1: the per-tick roll resolution -/

/-- C1: in one combat tick with die results `d1`, `d2`, where
`playerRoll = d1 + strength` and `enemyRoll = d2 + enemyAttack` and
`delta = |playerRoll - enemyRoll|`: a higher player roll deals
`ceil(delta/2) + 1` damage to the enemy's HP (floored at zero) with tick
source `player` and the player's row untouched; a higher enemy roll deals
`ceil(delta/2)` damage to the player's HP (floored at zero) with source
`enemy` and the enemy row untouched; equal rolls leave the store
completely unchanged with source `tie` and zero damage. -/
theorem combat_tick_roll_resolution (st : Store) (u : UserRec) (e : ItemRec) (d1 d2 : Nat)
    (hu : getUser st u.id = some u) (he : getItem st e.id = some e) :
    ((d1 : Int) + u.strength > (d2 : Int) + e.enemy_attack →
      (resolvePhase st u e d1 d2).2.source = .player ∧
      (resolvePhase st u e d1 d2).2.damage =
        (ceilHalf (((d1 : Int) + u.strength - ((d2 : Int) + e.enemy_attack)).natAbs) : Nat) + 1 ∧
      getItem (resolvePhase st u e d1 d2).1 e.id =
        some { e with
          enemy_hp := max 0 (e.enemy_hp - (resolvePhase st u e d1 d2).2.damage) } ∧
      getUser (resolvePhase st u e d1 d2).1 u.id = some u) ∧
    ((d2 : Int) + e.enemy_attack > (d1 : Int) + u.strength →
      (resolvePhase st u e d1 d2).2.source = .enemy ∧
      (resolvePhase st u e d1 d2).2.damage =
        (ceilHalf (((d1 : Int) + u.strength - ((d2 : Int) + e.enemy_attack)).natAbs) : Nat) ∧
      getUser (resolvePhase st u e d1 d2).1 u.id =
        some { u with hp := max 0 (u.hp - (resolvePhase st u e d1 d2).2.damage) } ∧
      getItem (resolvePhase st u e d1 d2).1 e.id = some e) ∧
    ((d1 : Int) + u.strength = (d2 : Int) + e.enemy_attack →
      (resolvePhase st u e d1 d2).2.source = .tie ∧
      (resolvePhase st u e d1 d2).2.damage = 0 ∧
      (resolvePhase st u e d1 d2).1 = st) := by
  refine ⟨fun h => ?_, fun h => ?_, fun h => ?_⟩
  · simp only [resolvePhase, if_pos h, getItem_updateItemEnemyHp, he, Option.map_some',
      beq_self_eq_true, if_true, getUser_updateItemEnemyHp, hu]
    exact ⟨trivial, trivial, trivial, trivial⟩
  · have h1 : ¬ ((d1 : Int) + u.strength > (d2 : Int) + e.enemy_attack) := by omega
    simp only [resolvePhase, if_neg h1, if_pos h, getUser_updateUserHp, hu, Option.map_some',
      beq_self_eq_true, if_true, getItem_updateUserHp, he]
    exact ⟨trivial, trivial, trivial, trivial⟩
  · have h1 : ¬ ((d1 : Int) + u.strength > (d2 : Int) + e.enemy_attack) := by omega
    have h2 : ¬ ((d2 : Int) + e.enemy_attack > (d1 : Int) + u.strength) := by omega
    simp only [resolvePhase, if_neg h1, if_neg h2]
    exact ⟨trivial, trivial, trivial⟩

/-- Witness for `combat_tick_roll_resolution`: with die results `(6, 2)`,
strength `0` and attack `0`, the tick deals `ceil(4/2) + 1 = 3` damage to
the enemy with source `player`; with `(3, 3)` the tick is a tie, deals no
damage and leaves the store unchanged. -/
theorem combat_tick_roll_resolution_witness :
    ((resolvePhase exCombatStore exCombatPlayer exEnemy 6 2).2.source = .player ∧
     (resolvePhase exCombatStore exCombatPlayer exEnemy 6 2).2.damage = 3 ∧
     getItem (resolvePhase exCombatStore exCombatPlayer exEnemy 6 2).1 exEnemy.id =
       some { exEnemy with enemy_hp := 7 }) ∧
    ((resolvePhase exCombatStore exCombatPlayer exEnemy 3 3).2.source = .tie ∧
     (resolvePhase exCombatStore exCombatPlayer exEnemy 3 3).2.damage = 0 ∧
     (resolvePhase exCombatStore exCombatPlayer exEnemy 3 3).1 = exCombatStore) := by
  have h1 := combat_tick_roll_resolution exCombatStore exCombatPlayer exEnemy 6 2
    (by decide) (by decide)
  have h2 := combat_tick_roll_resolution exCombatStore exCombatPlayer exEnemy 3 3
    (by decide) (by decide)
  have hp1 := h1.1 (by decide)
  refine ⟨⟨hp1.1, ?_, ?_⟩, h2.2.2 (by decide)⟩
  · rw [hp1.2.1]; decide
  · rw [hp1.2.2.1, hp1.2.1]; decide

theorem getRoomItems_updateUserState (st : Store) (id : String) (s : UserState)
    (roomId serverCode : String) :
    getRoomItems (updateUserState st id s) roomId serverCode =
      getRoomItems st roomId serverCode := rfl

theorem getRoomItems_updateUserGold (st : Store) (id : String) (g : Int)
    (roomId serverCode : String) :
    getRoomItems (updateUserGold st id g) roomId serverCode =
      getRoomItems st roomId serverCode := rfl

theorem store_endBattle (gs : GameState) (uid : String) :
    (endBattle gs uid).store = gs.store := rfl

/-- A user never matches the battle-registry predicate after `endBattle`
removed every entry keyed by that user. -/
theorem isInCombat_endBattle (gs : GameState) (uid : String) :
    isInCombat (endBattle gs uid) uid = false := by
  simp only [isInCombat, endBattle]
  rw [List.any_eq_false]
  intro p hp
  have := (List.mem_filter.mp hp).2
  simp only [bne_iff_ne, ne_eq] at this
  simp [this]

/-! ### C4: the victory outcome of a lethal tick -/

/-- C4: a combat tick whose player-favoured roll deals at least the
enemy's remaining HP ends the battle in victory: the tick's event list
contains exactly one `combat:end` event and it carries result `win` with
the enemy's configured `xp_value` as loot, the user's gold increases by
exactly that `xp_value` and the user's mode becomes `IDLE`, the enemy item
is deleted so it resolves to no row and is absent from every subsequent
room-item query, and the user's battle-registry entry is cleared.  The
hypothesis `e.xp_value ≠ 0` reflects that every enemy authored through
the wizard has a positive XP value (`handleObjEnemyStats` rejects
non-positive values); the code falls back to `10` for a falsy stored
value. -/
theorem combat_victory_tick (gs : GameState) (u : UserRec) (room : RoomRec) (e : ItemRec)
    (d1 d2 : Nat)
    (hu : getUser gs.store u.id = some u)
    (hroom : getRoom gs.store u.current_q u.current_r u.server_code = some room)
    (henemy : (getRoomItems gs.store room.id u.server_code).find?
      (fun i => i.id == e.id) = some e)
    (hitem : getItem gs.store e.id = some e)
    (halive : 0 < e.enemy_hp)
    (hwin : (d1 : Int) + u.strength > (d2 : Int) + e.enemy_attack)
    (hkill : e.enemy_hp ≤
      (ceilHalf (((d1 : Int) + u.strength - ((d2 : Int) + e.enemy_attack)).natAbs) : Nat) + 1)
    (hxp : e.xp_value ≠ 0) :
    (combatTick gs u.id e.id d1 d2).2.filter isCombatEnd =
      [Event.combatEnd "win" (some e.xp_value)] ∧
    getUser (combatTick gs u.id e.id d1 d2).1.store u.id =
      some { u with gold := u.gold + e.xp_value, state := .IDLE } ∧
    getItem (combatTick gs u.id e.id d1 d2).1.store e.id = none ∧
    (∀ roomId serverCode,
      ∀ i ∈ getRoomItems (combatTick gs u.id e.id d1 d2).1.store roomId serverCode,
        i.id ≠ e.id) ∧
    isInCombat (combatTick gs u.id e.id d1 d2).1 u.id = false := by
  obtain ⟨hsrc, hdmg, henemyhp, huser⟩ :=
    (combat_tick_roll_resolution gs.store u e d1 d2 hu hitem).1 hwin
  have hnotdead : ¬ (e.enemy_hp ≤ 0) := by omega
  have hhp0 : max 0 (e.enemy_hp - (resolvePhase gs.store u e d1 d2).2.damage) = 0 := by
    rw [hdmg]; omega
  have hxpb : (e.xp_value == 0) = false := by simpa using hxp
  rw [hhp0] at henemyhp
  simp only [combatTick, hu, hroom, henemy, if_neg hnotdead, henemyhp, huser,
    Option.getD_some, hxpb, Bool.false_eq_true, if_false, decide_True, if_true,
    le_refl, decide_eq_true_eq]
  refine ⟨?_, ?_, ?_, ?_, ?_⟩
  · simp [isCombatEnd]
  · simp only [getUser_updateUserState, getUser_deleteItem, getUser_updateUserGold,
      store_endBattle, huser, Option.map_some', beq_self_eq_true, if_true]
  · simp only [getItem_updateUserState, getItem_deleteItem_self]
  · intro roomId serverCode i hi
    rw [getRoomItems_updateUserState] at hi
    exact getRoomItems_deleteItem_self _ _ _ _ i hi
  · exact isInCombat_endBattle _ _

/-- A nearly defeated goblin (2 HP left) in the genesis room. -/
def exWeakEnemy : ItemRec := { exEnemy with id := "e2", enemy_hp := 2, enemy_max_hp := 2 }

/-- A game state mid-battle against the nearly defeated goblin. -/
def exVictoryStore : Store :=
  { users := [exCombatPlayer], rooms := [exRoom], items := [exWeakEnemy], animations := [] }

def exVictoryGs : GameState :=
  { store := exVictoryStore
    sessions := [("sock1", "u1")], tempRoom := [], tempItem := []
    battles := [("u1", { socketId := "sock1", enemyId := "e2" })] }

/-- Witness for `combat_victory_tick`: rolls `(6, 2)` against the 2-HP
goblin kill it; the tick emits a single `combat:end` win with 50 gold of
loot, the player's gold rises from 5 to 55, the goblin is gone, and the
battle registry is cleared. -/
theorem combat_victory_tick_witness :
    (combatTick exVictoryGs exCombatPlayer.id exWeakEnemy.id 6 2).2.filter isCombatEnd =
      [Event.combatEnd "win" (some 50)] ∧
    getUser (combatTick exVictoryGs exCombatPlayer.id exWeakEnemy.id 6 2).1.store
      exCombatPlayer.id = some { exCombatPlayer with gold := 55, state := .IDLE } ∧
    getItem (combatTick exVictoryGs exCombatPlayer.id exWeakEnemy.id 6 2).1.store
      exWeakEnemy.id = none ∧
    isInCombat (combatTick exVictoryGs exCombatPlayer.id exWeakEnemy.id 6 2).1
      exCombatPlayer.id = false := by
  have h := combat_victory_tick exVictoryGs exCombatPlayer exRoom exWeakEnemy 6 2
    (by decide) (by decide) (by decide) (by decide) (by decide) (by decide)
    (by decide) (by decide)
  exact ⟨h.1, h.2.1, h.2.2.1, h.2.2.2.2⟩

/-! ### C5: the defeat outcome of a fatal tick -/

theorem getItem_updateUserPosition (st : Store) (id : String) (q r : Int) (id' : String) :
    getItem (updateUserPosition st id q r) id' = getItem st id' := rfl

/-- C5: a combat tick whose enemy-favoured roll deals at least the
player's remaining HP ends the battle in defeat, and death handling
touches exactly the fields the claim names: the user's row afterwards is
the old row with HP reset to `max_hp`, coordinate reset to `(0, 0)` and
mode `IDLE` — in particular gold and every other persisted user field are
unchanged from before the fatal tick.  The tick emits exactly one
`combat:end` event, a loss; the enemy row (its HP included) is untouched;
the battle registry is cleared. -/
theorem combat_defeat_tick (gs : GameState) (u : UserRec) (room : RoomRec) (e : ItemRec)
    (d1 d2 : Nat)
    (hu : getUser gs.store u.id = some u)
    (hroom : getRoom gs.store u.current_q u.current_r u.server_code = some room)
    (henemy : (getRoomItems gs.store room.id u.server_code).find?
      (fun i => i.id == e.id) = some e)
    (hitem : getItem gs.store e.id = some e)
    (halive : 0 < e.enemy_hp)
    (hlose : (d2 : Int) + e.enemy_attack > (d1 : Int) + u.strength)
    (hdie : u.hp ≤
      (ceilHalf (((d1 : Int) + u.strength - ((d2 : Int) + e.enemy_attack)).natAbs) : Nat)) :
    getUser (combatTick gs u.id e.id d1 d2).1.store u.id =
      some { u with hp := u.max_hp, current_q := 0, current_r := 0, state := .IDLE } ∧
    (combatTick gs u.id e.id d1 d2).2.filter isCombatEnd =
      [Event.combatEnd "loss" none] ∧
    getItem (combatTick gs u.id e.id d1 d2).1.store e.id = some e ∧
    isInCombat (combatTick gs u.id e.id d1 d2).1 u.id = false := by
  obtain ⟨hsrc, hdmg, huser, hitem1⟩ :=
    (combat_tick_roll_resolution gs.store u e d1 d2 hu hitem).2.1 hlose
  have hnotdead : ¬ (e.enemy_hp ≤ 0) := by omega
  have hb : decide (e.enemy_hp ≤ 0) = false := decide_eq_false hnotdead
  have hhp0 : max 0 (u.hp - (resolvePhase gs.store u e d1 d2).2.damage) = 0 := by
    rw [hdmg]; omega
  rw [hhp0] at huser
  simp only [combatTick, hu, hroom, henemy, if_neg hnotdead, hitem1, hb,
    Bool.false_eq_true, if_false, huser, Option.getD_some, le_refl, if_true]
  refine ⟨?_, ?_, ?_, ?_⟩
  · simp only [handlePlayerDeath, getUser_updateUserState, getUser_updateUserPosition,
      getUser_updateUserHp, store_endBattle, huser, Option.map_some', beq_self_eq_true,
      if_true]
  · simp [handlePlayerDeath, isCombatEnd]
  · simp only [handlePlayerDeath, getItem_updateUserState, getItem_updateUserPosition,
      getItem_updateUserHp, store_endBattle, hitem1]
  · exact isInCombat_endBattle _ _

/-- A frail player (2 HP) in combat mode, away from the origin. -/
def exFrailPlayer : UserRec :=
  { exPlayer with hp := 2, current_q := 3, current_r := -2, state := .COMBAT }

/-- The room the frail player is standing in. -/
def exRoom2 : RoomRec := { exRoom with id := "r2", q := 3, r := -2 }

/-- The goblin placed in that room. -/
def exEnemyR2 : ItemRec := { exEnemy with room_id := some "r2" }

/-- A game state mid-battle just before the fatal tick. -/
def exDefeatStore : Store :=
  { users := [exFrailPlayer], rooms := [exRoom, exRoom2], items := [exEnemyR2],
    animations := [] }

def exDefeatGs : GameState :=
  { store := exDefeatStore
    sessions := [("sock1", "u1")], tempRoom := [], tempItem := []
    battles := [("u1", { socketId := "sock1", enemyId := "e1" })] }

/-- Witness for `combat_defeat_tick`: rolls `(1, 6)` against the 2-HP
player kill them; gold stays at 5, HP resets to 20, the player respawns
at the origin in `IDLE` mode, the goblin row is untouched, and a single
`combat:end` loss is emitted. -/
theorem combat_defeat_tick_witness :
    getUser (combatTick exDefeatGs exFrailPlayer.id exEnemyR2.id 1 6).1.store
      exFrailPlayer.id =
      some { exFrailPlayer with hp := 20, current_q := 0, current_r := 0, state := .IDLE } ∧
    (combatTick exDefeatGs exFrailPlayer.id exEnemyR2.id 1 6).2.filter isCombatEnd =
      [Event.combatEnd "loss" none] ∧
    getItem (combatTick exDefeatGs exFrailPlayer.id exEnemyR2.id 1 6).1.store
      exEnemyR2.id = some exEnemyR2 := by
  have h := combat_defeat_tick exDefeatGs exFrailPlayer exRoom2 exEnemyR2 1 6
    (by decide) (by decide) (by decide) (by decide) (by decide) (by decide) (by decide)
  exact ⟨h.1, h.2.1, h.2.2.1⟩

/-! ## Generic interaction handler (`handlers/interaction.ts`) -/

/-- The tail of `handleInteraction` shared by every effect branch that
does not return early: fire any interaction animation, emit the item's
success message (falling back to the computed one when the stored message
is empty), and return the refreshed state. -/
def finishInteraction (st' : Store) (gs : GameState) (item : ItemRec)
    (successMessage : String) (extraEvents : List Event) : HandlerResult :=
  let animEvents :=
    match getItemAnimation st' item.id "INTERACTION" with
    | some anim => [Event.animationPlay anim.id]
    | none => []
  let text := if item.success_message ≠ "" then item.success_message else successMessage
  { handled := true
    gs := { gs with store := st' }
    events := extraEvents ++ animEvents ++ [.gameLog text .info, .stateUpdate] }

/-- The `switch (item.effect_type)` of `handleInteraction`. -/
def applyInteractionEffect (gs : GameState) (user : UserRec) (item : ItemRec)
    (verb : String) : HandlerResult :=
  let updatedUser := (getUser gs.store user.id).getD user
  match item.effect_type with
  | .GOLD =>
    let newGold := updatedUser.gold + item.effect_value
    finishInteraction (updateUserGold gs.store user.id newGold) gs item
      ("You gained " ++ toString item.effect_value ++ " gold!") []
  | .HEAL =>
    let newHp := min updatedUser.max_hp (updatedUser.hp + item.effect_value)
    finishInteraction (updateUserHp gs.store user.id newHp) gs item
      ("You recovered " ++ toString (newHp - updatedUser.hp) ++ " HP!") []
  | .DAMAGE =>
    let damagedHp := max 0 (updatedUser.hp - item.effect_value)
    finishInteraction (updateUserHp gs.store user.id damagedHp) gs item
      ("You took " ++ toString item.effect_value ++ " damage!")
      (if damagedHp = 0 then [.gameLog "You have been defeated!" .error] else [])
  | .ITEM =>
    match item.room_id with
    | some _ =>
      if item.is_infinite then
        finishInteraction (cloneItemForUser gs.store item user.id) gs item
          ("You picked up the " ++ item.name ++ ".") []
      else
        finishInteraction (setItemOwner gs.store item.id (some user.id) none) gs item
          ("You picked up the " ++ item.name ++ ".") []
    | none =>
      { handled := true, gs := gs
        events := [.gameLog ("You already have the " ++ item.name ++ ".") .error] }
  | .NONE =>
    finishInteraction gs.store gs item
      ("You " ++ verb ++ " the " ++ item.name ++ ".") []

/-- `handleInteraction`: parse `verb object...`, reject reserved verbs,
resolve the item by case-insensitive name in the room then the inventory,
check the verb and any required-item gate, then apply the single effect. -/
def handleInteraction (gs : GameState) (user : UserRec) (command : String) : HandlerResult :=
  match jsWords (jsTrim command) with
  | [] => { handled := false, gs := gs, events := [] }
  | verb0 :: rest =>
    if rest.isEmpty then { handled := false, gs := gs, events := [] }
    else
      let verb := jsToLower verb0
      if verb = "go" ∨ verb = "help" then { handled := false, gs := gs, events := [] }
      else
        let objectName := " ".intercalate rest
        match getRoom gs.store user.current_q user.current_r user.server_code with
        | none =>
          { handled := true, gs := gs
            events := [.gameLog "You are not in a valid room." .error] }
        | some currentRoom =>
          if jsStartsWith currentRoom.id "void-" then
            { handled := true, gs := gs
              events := [.gameLog "You are not in a valid room." .error] }
          else
            let item? :=
              match getItemByName gs.store currentRoom.id objectName user.server_code with
              | some it => some it
              | none =>
                (getUserInventory gs.store user.id user.server_code).find?
                  (fun i => jsToLower i.name == jsToLower objectName)
            match item? with
            | none =>
              { handled := true, gs := gs
                events := [.gameLog ("You do not see " ++ objectName ++ " here.") .error] }
            | some item =>
              if jsToLower item.interact_verb ≠ verb then
                { handled := true, gs := gs
                  events :=
                    [.gameLog ("You cannot " ++ verb ++ " the " ++ item.name ++ ".") .error] }
              else
                match item.required_item_id with
                | some rid =>
                  let inventory := getUserInventory gs.store user.id user.server_code
                  if inventory.any (fun i => i.id == rid) then
                    applyInteractionEffect gs user item verb
                  else
                    let allItems :=
                      getRoomItems gs.store currentRoom.id user.server_code ++ inventory
                    let hint :=
                      match allItems.find? (fun i => i.id == rid) with
                      | some req => " (You need a " ++ req.name ++ ")"
                      | none => ""
                    { handled := true, gs := gs
                      events :=
                        [.gameLog ("You need a specific item to do that." ++ hint) .error] }
                | none => applyInteractionEffect gs user item verb

/-! ### C7: pickup semantics of `ITEM`-effect interactions -/

/-- C7: for an `ITEM`-effect item targeted by a well-formed
`verb object` command with the item's configured verb and no gate: if the
item is placed in the room and marked infinite, a fresh clone owned by
the acting user is appended (the room copy and every other row are
untouched, so the user's inventory gains exactly one independent row and
the room's item list is unchanged); if it is placed in the room and not
infinite, the row itself is moved — owner set to the user, room placement
cleared — with no row added or removed, and when the item was the only
room row with that name, a subsequent room lookup by name finds nothing;
if the item is instead found in the user's inventory (no room placement),
the interaction is rejected with an "already have" error and no state
change. -/
theorem item_pickup_semantics (gs : GameState) (user : UserRec) (room : RoomRec)
    (command verb0 : String) (rest : List String) (item : ItemRec)
    (hroom : getRoom gs.store user.current_q user.current_r user.server_code = some room)
    (hnotvoid : jsStartsWith room.id "void-" = false)
    (hparse : jsWords (jsTrim command) = verb0 :: rest)
    (hrest : rest ≠ [])
    (hban : jsToLower verb0 ≠ "go" ∧ jsToLower verb0 ≠ "help")
    (hverb : jsToLower item.interact_verb = jsToLower verb0)
    (hreq : item.required_item_id = none)
    (heff : item.effect_type = .ITEM)
    (hsc : item.server_code = user.server_code) :
    (getItemByName gs.store room.id (" ".intercalate rest) user.server_code = some item →
      (item.room_id ≠ none →
        (item.is_infinite = true →
          (handleInteraction gs user command).handled = true ∧
          (handleInteraction gs user command).gs.store.items =
            gs.store.items ++ [pickupClone gs.store item user.id] ∧
          (∀ roomId,
            getRoomItems (handleInteraction gs user command).gs.store roomId user.server_code =
              getRoomItems gs.store roomId user.server_code) ∧
          getUserInventory (handleInteraction gs user command).gs.store user.id
              user.server_code =
            getUserInventory gs.store user.id user.server_code ++
              [pickupClone gs.store item user.id]) ∧
        (item.is_infinite = false →
          (handleInteraction gs user command).handled = true ∧
          (handleInteraction gs user command).gs.store.items =
            gs.store.items.map (fun i =>
              if i.id == item.id then { i with owner_id := some user.id, room_id := none }
              else i) ∧
          ((∀ i ∈ gs.store.items,
              i.room_id = some room.id → jsToLower i.name = jsToLower (" ".intercalate rest) →
              i.owner_id = none → i.server_code = user.server_code → i = item) →
            getItemByName (handleInteraction gs user command).gs.store room.id
              (" ".intercalate rest) user.server_code = none)))) ∧
    (getItemByName gs.store room.id (" ".intercalate rest) user.server_code = none →
      (getUserInventory gs.store user.id user.server_code).find?
        (fun i => jsToLower i.name == jsToLower (" ".intercalate rest)) = some item →
      item.room_id = none →
      (handleInteraction gs user command).handled = true ∧
      (handleInteraction gs user command).gs = gs ∧
      (handleInteraction gs user command).events =
        [.gameLog ("You already have the " ++ item.name ++ ".") .error]) := by
  cases rest with
  | nil => exact absurd rfl hrest
  | cons r0 rs =>
    have hbanb : ¬ (jsToLower verb0 = "go" ∨ jsToLower verb0 = "help") := by
      rintro (h | h) <;> [exact hban.1 h; exact hban.2 h]
    have hverb' : ¬ (jsToLower item.interact_verb ≠ jsToLower verb0) := by
      simpa using hverb
    constructor
    · intro hin hinroom
      obtain ⟨rid0, hrid⟩ : ∃ r, item.room_id = some r := by
        cases h : item.room_id with
        | none => exact absurd h hinroom
        | some r => exact ⟨r, rfl⟩
      constructor
      · intro hinf
        simp only [handleInteraction, hparse, List.isEmpty_cons, Bool.false_eq_true,
          if_false, if_neg hbanb, hroom, hnotvoid, hin, if_neg hverb', hreq,
          applyInteractionEffect, heff, hrid, hinf, if_true, finishInteraction,
          cloneItemForUser]
        refine ⟨trivial, trivial, fun roomId => ?_, ?_⟩
        · simp only [getRoomItems, List.filter_append]
          have : (fun i => i.room_id == some roomId && i.owner_id == none &&
              i.server_code == user.server_code) (pickupClone gs.store item user.id) = false := by
            simp [pickupClone]
          simp [this]
        · simp only [getUserInventory, List.filter_append]
          have : (fun i => i.owner_id == some user.id &&
              i.server_code == user.server_code) (pickupClone gs.store item user.id) = true := by
            simp [pickupClone, hsc]
          simp [this]
      · intro hinf
        simp only [handleInteraction, hparse, List.isEmpty_cons, Bool.false_eq_true,
          if_false, if_neg hbanb, hroom, hnotvoid, hin, if_neg hverb', hreq,
          applyInteractionEffect, heff, hrid, hinf, if_false, finishInteraction,
          setItemOwner]
        refine ⟨trivial, trivial, fun huniq => ?_⟩
        simp only [getItemByName]
        rw [List.find?_eq_none]
        intro i hi
        obtain ⟨j, hj, hji⟩ := List.mem_map.mp hi
        by_cases hid : (j.id == item.id) = true
        · rw [if_pos hid] at hji
          subst hji
          simp
        · rw [if_neg hid] at hji
          subst hji
          intro hcontra
          simp only [Bool.and_eq_true, beq_iff_eq] at hcontra
          obtain ⟨⟨⟨h1, h2⟩, h3⟩, h4⟩ := hcontra
          have : j = item := huniq j hj h1 h2 (by simpa using h3) h4
          subst this
          simp at hid
    · intro hnone hinv hroomid
      simp only [handleInteraction, hparse, List.isEmpty_cons, Bool.false_eq_true,
        if_false, if_neg hbanb, hroom, hnotvoid, hnone, hinv, if_neg hverb', hreq,
        applyInteractionEffect, heff, hroomid]
      exact ⟨trivial, trivial, trivial⟩

/-- A second player in the same realm. -/
def exPlayer2 : UserRec := { exPlayer with id := "u2", handle := "bob" }

/-- An infinite pickup (template mushroom) in the genesis room. -/
def exMushroom : ItemRec :=
  { id := "m1", room_id := some "r1", owner_id := none, server_code := "srv",
    name := "mushroom", description := "A mushroom.", success_message := "",
    interact_verb := "take", effect_type := .ITEM, effect_value := 0,
    is_hidden := 0, required_item_id := none, enemy_hp := 0, enemy_max_hp := 0,
    enemy_attack := 0, xp_value := 10, is_infinite := true }

/-- A unique (non-infinite) pickup in the genesis room. -/
def exSword : ItemRec := { exMushroom with id := "s1", name := "sword", is_infinite := false }

def exPickupStore : Store :=
  { users := [exPlayer, exPlayer2], rooms := [exRoom], items := [exMushroom, exSword],
    animations := [] }

def exPickupGs : GameState :=
  { store := exPickupStore, sessions := [], tempRoom := [], tempItem := [], battles := [] }

/-- Witness for `item_pickup_semantics`: picking the infinite mushroom up
from two sessions yields one independent inventory row per user while the
room template remains; picking the unique sword up moves it, so the other
user's second attempt does not see it, the owner's second attempt is an
"already have" rejection, and no duplicate row ever appears. -/
theorem item_pickup_semantics_witness :
    (handleInteraction exPickupGs exPlayer "take mushroom").handled = true ∧
    (handleInteraction exPickupGs exPlayer "take mushroom").gs.store.items =
      exPickupGs.store.items ++ [pickupClone exPickupGs.store exMushroom exPlayer.id] ∧
    (getUserInventory (handleInteraction
        (handleInteraction exPickupGs exPlayer "take mushroom").gs
        exPlayer2 "take mushroom").gs.store exPlayer.id "srv").length = 1 ∧
    (getUserInventory (handleInteraction
        (handleInteraction exPickupGs exPlayer "take mushroom").gs
        exPlayer2 "take mushroom").gs.store exPlayer2.id "srv").length = 1 ∧
    getItemByName (handleInteraction
        (handleInteraction exPickupGs exPlayer "take mushroom").gs
        exPlayer2 "take mushroom").gs.store "r1" "mushroom" "srv" = some exMushroom ∧
    (handleInteraction (handleInteraction exPickupGs exPlayer "take sword").gs
        exPlayer2 "take sword").events =
      [.gameLog "You do not see sword here." .error] ∧
    (handleInteraction (handleInteraction exPickupGs exPlayer "take sword").gs
        exPlayer "take sword").events =
      [.gameLog "You already have the sword." .error] ∧
    (handleInteraction exPickupGs exPlayer "take sword").gs.store.items.length = 2 := by
  have h := ((item_pickup_semantics exPickupGs exPlayer exRoom "take mushroom" "take"
    ["mushroom"] exMushroom (by decide) (by decide) (by decide) (by decide) (by decide)
    (by decide) (by decide) (by decide) (by decide)).1
    (by decide) (by decide)).1 (by decide)
  exact ⟨h.1, h.2.1, by decide, by decide, by decide, by decide, by decide, by decide⟩

/-! ## Creation wizard (`handlers/creation.ts`), the object-authoring
steps involved in gate creation -/

/-- JavaScript truthiness of an optional string: `undefined` and the
empty string are falsy. -/
def jsFalsyStr : Option String → Bool
  | none => true
  | some s => s == ""

/-- The session-expiry branch shared by `handleObjRequirement`,
`handleObjVerbConfirm` and `handleObjSuccessMsg`: report, force the mode
back to `IDLE`, discard the item scratch data. -/
def wizardExpiredDrop (gs : GameState) (user : UserRec) : HandlerResult :=
  let gs1 := { gs with store := updateUserState gs.store user.id .IDLE }
  { handled := true
    gs := deleteTempItemData gs1 user.id
    events := [.gameLog "Creation session expired. Please try again." .error] }

/-- The field values `finishObjectCreation` derives from the scratch
record and passes to `repo.createItem` (before the fresh identifier is
assigned). -/
def wizardItemFields (user : UserRec) (t : TempItemData) : ItemRec :=
  let effectType : EffectType :=
    match t.interactionType with
    | some .FLAVOR => .NONE
    | some .TREASURE => .GOLD
    | some .BUFF_TRAP => if t.effectValue.getD 0 > 0 then .HEAL else .DAMAGE
    | some .PICKUP => .ITEM
    | some .ENEMY => .NONE
    | some .GATE => .NONE
    | none => .NONE
  let effectValue : Int :=
    match t.interactionType with
    | some .TREASURE => t.effectValue.getD 0
    | some .BUFF_TRAP => |t.effectValue.getD 0|
    | _ => 0
  { id := ""
    room_id := some t.roomId
    owner_id := none
    server_code := user.server_code
    name := t.name.getD ""
    description := t.description.getD ""
    success_message := t.successMessage.getD ""
    interact_verb := t.verb.getD ""
    effect_type := effectType
    effect_value := effectValue
    is_hidden := 0
    required_item_id := if t.interactionType = some .GATE then t.requiredItemId else none
    enemy_hp := if t.interactionType = some .ENEMY then t.enemyHp.getD 0 else 0
    enemy_max_hp := if t.interactionType = some .ENEMY then t.enemyMaxHp.getD 0 else 0
    enemy_attack := if t.interactionType = some .ENEMY then t.enemyAttack.getD 0 else 0
    xp_value :=
      if t.interactionType = some .ENEMY then
        match t.xpValue with
        | some v => if v == 0 then 10 else v
        | none => 10
      else 10
    is_infinite := t.isInfinite.getD false }

/-- `finishObjectCreation`: commit the authored object, loop the wizard
back to the add-another-object confirmation. -/
def finishObjectCreation (gs : GameState) (user : UserRec) (t : TempItemData) :
    HandlerResult :=
  let created := createItem gs.store (wizardItemFields user t)
  let st2 := updateUserState created.1 user.id .CREATING_OBJ_CONFIRM
  let gs1 := setTempItemData { gs with store := st2 } user.id { roomId := t.roomId }
  { handled := true
    gs := gs1
    events :=
      [.gameLog ("Object " ++ t.name.getD "" ++ " created!") .info,
       .gameLog "Add an object? (y/n)" .prompt,
       .stateUpdate] }

/-- `handleObjRequirement` (`CREATING_OBJ_REQUIREMENT`): look the typed
required-item name up among the room's items, case-insensitively; store
the match's identifier, or a null reference with a warning when nothing
matches, then advance to verb confirmation. -/
def handleObjRequirement (gs : GameState) (user : UserRec) (input : String) :
    HandlerResult :=
  match getTempItemData gs user.id with
  | none => wizardExpiredDrop gs user
  | some t =>
    if jsFalsyStr t.name || t.interactionType.isNone then wizardExpiredDrop gs user
    else
      let requiredItemName := jsTrim input
      if requiredItemName = "" then
        { handled := true, gs := gs
          events := [.gameLog "Item name cannot be empty." .error] }
      else
        let allItems := getRoomItems gs.store t.roomId user.server_code
        let found := allItems.find?
          (fun i => jsToLower i.name == jsToLower requiredItemName)
        let t' :=
          match found with
          | some matchingItem =>
            { t with requiredItemId := some matchingItem.id
                     requiredItemName := some matchingItem.name }
          | none =>
            { t with requiredItemId := none
                     requiredItemName := some requiredItemName }
        let lookupLog :=
          match found with
          | some matchingItem =>
            Event.gameLog ("Found item: \"" ++ matchingItem.name ++
              "\". Gate will require this item.") .info
          | none =>
            Event.gameLog ("Warning: Item \"" ++ requiredItemName ++
              "\" not found in this room. Gate will be created but may not work until the item exists.")
              .error
        let gs1 := setTempItemData gs user.id t'
        let gs2 := { gs1 with store := updateUserState gs1.store user.id .CREATING_OBJ_VERB_CONFIRM }
        { handled := true
          gs := gs2
          events := [lookupLog,
            .gameLog ("Default verb is " ++ (t'.verb.getD "open") ++
              ". Press Y to confirm or type a custom verb.") .prompt,
            .stateUpdate] }

/-- `handleObjVerbConfirm` (`CREATING_OBJ_VERB_CONFIRM`): `y`/`yes` keeps
the default verb, anything else becomes the custom verb; advance to the
success-message step. -/
def handleObjVerbConfirm (gs : GameState) (user : UserRec) (input : String) :
    HandlerResult :=
  match getTempItemData gs user.id with
  | none => wizardExpiredDrop gs user
  | some t =>
    if jsFalsyStr t.name || t.interactionType.isNone then wizardExpiredDrop gs user
    else
      let trimmedInput := jsToLower (jsTrim input)
      let t' :=
        if trimmedInput = "y" ∨ trimmedInput = "yes" then t
        else { t with verb := some trimmedInput }
      let gs1 := setTempItemData gs user.id t'
      let gs2 := { gs1 with store := updateUserState gs1.store user.id .CREATING_OBJ_SUCCESS_MSG }
      { handled := true
        gs := gs2
        events := [.gameLog ("Describe what happens when someone " ++
            t'.verb.getD "" ++ " " ++ t'.name.getD "" ++ ".") .prompt,
          .stateUpdate] }

/-- `handleObjSuccessMsg` (`CREATING_OBJ_SUCCESS_MSG`): record the success
message (blank allowed) and commit the object. -/
def handleObjSuccessMsg (gs : GameState) (user : UserRec) (input : String) :
    HandlerResult :=
  match getTempItemData gs user.id with
  | none => wizardExpiredDrop gs user
  | some t =>
    if jsFalsyStr t.name then wizardExpiredDrop gs user
    else
      let t' := { t with successMessage := some (jsTrim input) }
      let gs1 := setTempItemData gs user.id t'
      finishObjectCreation gs1 user t'

/-! ### C6: gate authoring with an unmatched required-item name -/

/-- The author, mid-wizard, at the gate-requirement step. -/
def exWizardUser : UserRec := { exPlayer with state := .CREATING_OBJ_REQUIREMENT }

/-- Scratch data for the gate being authored. -/
def exGateTemp : TempItemData :=
  { roomId := "r1", name := some "gate", interactionType := some .GATE, verb := some "open" }

/-- The authoring state: room `r1` holds no items, so no required-item
name can match. -/
def exGateGs : GameState :=
  { store := { users := [exWizardUser], rooms := [exRoom], items := [], animations := [] }
    sessions := [], tempRoom := [], tempItem := [("u1", exGateTemp)], battles := [] }

/-- The requirement step answered with the name of an item that does not
exist. -/
def exGateStep1 : HandlerResult := handleObjRequirement exGateGs exWizardUser "Magic Key"

/-- Verb confirmation answered with the default. -/
def exGateStep2 : HandlerResult := handleObjVerbConfirm exGateStep1.gs exWizardUser "y"

/-- Success message supplied; this step commits the gate item. -/
def exGateStep3 : HandlerResult :=
  handleObjSuccessMsg exGateStep2.gs exWizardUser "The gate swings open."

/-- C6 counterexample: authoring a gate whose required-item name
`Magic Key` matches nothing warns the author and still creates the gate —
but the gate is committed with a null required-item reference, so
interacting with it before any prerequisite exists succeeds (the success
message fires) instead of being rejected with a "you need a specific
item" message. -/
theorem gate_unmatched_requirement_not_gated :
    exGateStep1.events.head? =
      some (.gameLog ("Warning: Item \"Magic Key\" not found in this room. " ++
        "Gate will be created but may not work until the item exists.") .error) ∧
    (getItem exGateStep3.gs.store "item-0").map ItemRec.required_item_id = some none ∧
    (handleInteraction exGateStep3.gs exPlayer "open gate").handled = true ∧
    (handleInteraction exGateStep3.gs exPlayer "open gate").events =
      [.gameLog "The gate swings open." .info, .stateUpdate] := by
  decide

/-- C6 (amended): a gate whose required-item name matches no room item is
still created, with a warning to the author, but its stored required-item
reference is null, so interacting with it is not gated at all; the
"you need a specific item" rejection applies exactly to gates whose
required item matched at authoring time and is absent from the acting
player's inventory. -/
theorem gate_requirement_semantics :
    (∀ (gs : GameState) (user : UserRec) (t : TempItemData) (input : String),
      getTempItemData gs user.id = some t →
      jsFalsyStr t.name = false →
      t.interactionType.isNone = false →
      jsTrim input ≠ "" →
      (getRoomItems gs.store t.roomId user.server_code).find?
        (fun i => jsToLower i.name == jsToLower (jsTrim input)) = none →
      (handleObjRequirement gs user input).handled = true ∧
      (handleObjRequirement gs user input).events.head? =
        some (.gameLog ("Warning: Item \"" ++ jsTrim input ++
          "\" not found in this room. Gate will be created but may not work until the item exists.")
          .error) ∧
      getTempItemData (handleObjRequirement gs user input).gs user.id =
        some { t with requiredItemId := none, requiredItemName := some (jsTrim input) }) ∧
    (∀ (gs : GameState) (user : UserRec) (t : TempItemData),
      (finishObjectCreation gs user t).gs.store.items =
        gs.store.items ++
          [{ wizardItemFields user t with id := "item-" ++ toString gs.store.nextId }] ∧
      (t.interactionType = some .GATE →
        (wizardItemFields user t).required_item_id = t.requiredItemId)) ∧
    (∀ (gs : GameState) (user : UserRec) (room : RoomRec) (command verb0 : String)
        (rest : List String) (item : ItemRec) (rid : String),
      getRoom gs.store user.current_q user.current_r user.server_code = some room →
      jsStartsWith room.id "void-" = false →
      jsWords (jsTrim command) = verb0 :: rest →
      rest ≠ [] →
      jsToLower verb0 ≠ "go" →
      jsToLower verb0 ≠ "help" →
      getItemByName gs.store room.id (" ".intercalate rest) user.server_code = some item →
      jsToLower item.interact_verb = jsToLower verb0 →
      item.required_item_id = some rid →
      (getUserInventory gs.store user.id user.server_code).any (fun i => i.id == rid) = false →
      (handleInteraction gs user command).handled = true ∧
      (handleInteraction gs user command).gs = gs ∧
      (∃ hint, (handleInteraction gs user command).events =
        [.gameLog ("You need a specific item to do that." ++ hint) .error])) := by
  refine ⟨?_, ?_, ?_⟩
  · intro gs user t input htemp hfal hit hne hnomatch
    simp only [handleObjRequirement, htemp, hfal, hit, Bool.or_self, Bool.false_eq_true,
      if_false, if_neg hne, hnomatch]
    refine ⟨trivial, rfl, ?_⟩
    simp [getTempItemData, setTempItemData]
  · intro gs user t
    exact ⟨rfl, fun htype => by simp [wizardItemFields, htype]⟩
  · intro gs user room command verb0 rest item rid hroom hnotvoid hparse hrest hgo hhelp
      hin hverb hreq hnoinv
    cases rest with
    | nil => exact absurd rfl hrest
    | cons r0 rs =>
      have hbanb : ¬ (jsToLower verb0 = "go" ∨ jsToLower verb0 = "help") := by
        rintro (h | h) <;> [exact hgo h; exact hhelp h]
      have hverb' : ¬ (jsToLower item.interact_verb ≠ jsToLower verb0) := by
        simpa using hverb
      simp only [handleInteraction, hparse, List.isEmpty_cons, Bool.false_eq_true,
        if_false, if_neg hbanb, hroom, hnotvoid, hin, if_neg hverb', hreq, hnoinv]
      exact ⟨trivial, trivial, ⟨_, rfl⟩⟩

/-- A brass key lying in the genesis room. -/
def exKey : ItemRec :=
  { exMushroom with id := "key1", name := "Brass Key", is_infinite := false }

/-- A gate whose required item matched the brass key at authoring time. -/
def exLockedGate : ItemRec :=
  { exMushroom with
    id := "g1"
    name := "gate"
    interact_verb := "open"
    effect_type := .NONE
    is_infinite := false
    required_item_id := some "key1" }

/-- The room with the locked gate and the key; the player holds nothing. -/
def exLockedStore : Store :=
  { users := [exPlayer], rooms := [exRoom], items := [exLockedGate, exKey],
    animations := [] }

def exLockedGs : GameState :=
  { store := exLockedStore
    sessions := [], tempRoom := [], tempItem := [], battles := [] }

/-- Witness for `gate_requirement_semantics`: the unmatched lookup stores
a null reference and warns; a matched gate rejects the keyless player
with the "you need a specific item" message and a hint naming the key. -/
theorem gate_requirement_semantics_witness :
    (handleObjRequirement exGateGs exWizardUser "Magic Key").handled = true ∧
    getTempItemData (handleObjRequirement exGateGs exWizardUser "Magic Key").gs "u1" =
      some { exGateTemp with requiredItemId := none, requiredItemName := some "Magic Key" } ∧
    (handleInteraction exLockedGs exPlayer "open gate").handled = true ∧
    (handleInteraction exLockedGs exPlayer "open gate").gs = exLockedGs ∧
    (handleInteraction exLockedGs exPlayer "open gate").events =
      [.gameLog "You need a specific item to do that. (You need a Brass Key)" .error] := by
  obtain ⟨ha, hb, hc⟩ := gate_requirement_semantics
  have h1 := ha exGateGs exWizardUser exGateTemp "Magic Key"
    (by decide) (by decide) (by decide) (by decide) (by decide)
  have h3 := hc exLockedGs exPlayer exRoom "open gate" "open" ["gate"] exLockedGate "key1"
    (by decide) (by decide) (by decide) (by decide) (by decide) (by decide) (by decide)
    (by decide) (by decide) (by decide)
  exact ⟨h1.1, h1.2.2, h3.1, h3.2.1, by decide⟩

/-! ## Command dispatcher (`index.ts`, the `cmd:input` listener) -/

/-- JavaScript `parseInt(s, 10)`: skip leading whitespace, optional sign,
then the longest digit run; no digits means `NaN` (`none` here). -/
def jsParseInt (s : String) : Option Int :=
  let t := (jsTrim s).data
  let signed : Int × List Char :=
    match t with
    | '-' :: rest => (-1, rest)
    | '+' :: rest => (1, rest)
    | _ => (1, t)
  let ds := signed.2.takeWhile Char.isDigit
  if ds.isEmpty then none
  else some (signed.1 *
    (ds.foldl (fun acc c => acc * 10 + ((c.toNat - '0'.toNat : Nat) : Int)) 0))

/-- Which handler path the dispatcher lets consume the command. -/
inductive Route
  | wizard
  | help
  | look
  | regenerate
  | movement
  | fight
  | retreat
  | openCmd
  | interaction
  | unknown
  deriving DecidableEq, Repr

/-- The generic `<verb> <object|ordinal>` tail of the dispatcher: two or
more words, a non-reserved verb, ordinal re-validation against the room
listing, then the interaction handler. -/
def genericInteractionRoute (gs : GameState) (user : UserRec) (raw : String) : Route :=
  let words := jsWords (jsTrim raw)
  match words with
  | w0 :: w1 :: _ =>
    if ["go", "help", "fight", "open"].contains (jsToLower w0) then .unknown
    else
      let command? : Option String :=
        match jsParseInt w1 with
        | some n =>
          if n > 0 then
            match getRoom gs.store user.current_q user.current_r user.server_code with
            | some currentRoom =>
              let roomItems := getRoomItems gs.store currentRoom.id user.server_code
              match roomItems.get? (n - 1).toNat with
              | some targetItem =>
                if n ≤ roomItems.length then some (w0 ++ " " ++ targetItem.name) else none
              | none => none
            | none => some raw
          else some raw
        | none => some raw
      match command? with
      | none => .interaction
      | some cmd => if (handleInteraction gs user cmd).handled then .interaction else .unknown
  | _ => .unknown

/-- The `open <target|ordinal>` branch of the dispatcher. -/
def openRoute (gs : GameState) (user : UserRec) (raw : String) : Route :=
  let targetName0 := jsTrim (String.mk ((jsTrim raw).data.drop 5))
  let resolved : Option String :=
    match jsParseInt targetName0 with
    | some n =>
      if n > 0 then
        match getRoom gs.store user.current_q user.current_r user.server_code with
        | some currentRoom =>
          let roomItems := getRoomItems gs.store currentRoom.id user.server_code
          match roomItems.get? (n - 1).toNat with
          | some targetItem =>
            if n ≤ roomItems.length then some targetItem.name else none
          | none => none
        | none => some targetName0
      else some targetName0
    | none => some targetName0
  match resolved with
  | none => .openCmd
  | some targetName =>
    if (handleInteraction gs user ("open " ++ targetName)).handled then .openCmd
    else genericInteractionRoute gs user raw

/-- The `cmd:input` routing cascade of `index.ts`: wizard modes first and
unconditionally, then the literal `help`/`look`/`regenerate` commands,
then the movement parse, then `fight`/`retreat`, then `open`, then the
generic interaction, else an unknown-command error. -/
def dispatchRoute (gs : GameState) (user : UserRec) (raw : String) : Route :=
  if jsStartsWith user.state.toDbString "CREATING_" || user.state == .GENERATING_ANIMATIONS then
    .wizard
  else
    let command := jsToLower (jsTrim raw)
    if command = "help" then .help
    else if jsStartsWith command "look " then .look
    else if command = "look" ∨ command = "l" then .look
    else if command = "regenerate" ∨ command = "/regenerate" then .regenerate
    else if jsStartsWith command "regenerate " ∨ jsStartsWith command "/regenerate " then
      .regenerate
    else if (handleMove gs user raw).handled then .movement
    else if jsStartsWith command "fight " then .fight
    else if command = "retreat" ∨ command = "/retreat" then .retreat
    else if jsStartsWith command "open " then openRoute gs user raw
    else genericInteractionRoute gs user raw

/-! ### C8: wizard modes capture every command -/

/-- C8: for a user whose persisted mode is any `CREATING_*` state or
`GENERATING_ANIMATIONS`, the dispatcher routes every raw command to the
creation wizard handler and to no other path: help, look, regenerate,
movement, combat, retreat, open and the generic interaction never
execute. -/
theorem wizard_mode_routes_to_wizard (gs : GameState) (user : UserRec) (raw : String)
    (h : jsStartsWith user.state.toDbString "CREATING_" = true ∨
      user.state = .GENERATING_ANIMATIONS) :
    dispatchRoute gs user raw = .wizard := by
  have hb : (jsStartsWith user.state.toDbString "CREATING_" ||
      user.state == .GENERATING_ANIMATIONS) = true := by
    rcases h with h | h
    · simp [h]
    · simp [h]
  simp [dispatchRoute, hb]

/-- Witness for `wizard_mode_routes_to_wizard`: mid-wizard, even `help`
and a movement command go to the wizard. -/
theorem wizard_mode_routes_to_wizard_witness :
    dispatchRoute exGateGs exWizardUser "help" = .wizard ∧
    dispatchRoute exMoveGs { exPlayer with state := .GENERATING_ANIMATIONS } "n" = .wizard :=
  ⟨wizard_mode_routes_to_wizard exGateGs exWizardUser "help" (Or.inl (by decide)),
   wizard_mode_routes_to_wizard exMoveGs { exPlayer with state := .GENERATING_ANIMATIONS }
     "n" (Or.inr rfl)⟩

/-! ## Verb obfuscation (`handlers/general.ts`, `obfuscateText`) -/

/-- The `while (indices.size < numToHide)` loop of `obfuscateText`,
indexed by fuel: each iteration draws a random index (`draws k`, reduced
into range) and inserts it into the accumulated index set when it points
at a non-space character.  `none` means the loop had not finished when
the fuel ran out. -/
def obfuscateIndicesFuel (chars : List Char) (numToHide : Nat) (draws : Nat → Nat) :
    Nat → Nat → List Nat → Option (List Nat)
  | 0, _, acc => if numToHide ≤ acc.length then some acc else none
  | fuel + 1, k, acc =>
    if numToHide ≤ acc.length then some acc
    else
      let idx := draws k % chars.length
      let acc' :=
        if chars.getD idx ' ' ≠ ' ' then
          if idx ∈ acc then acc else idx :: acc
        else acc
      obfuscateIndicesFuel chars numToHide draws fuel (k + 1) acc'

/-- `obfuscateText`, fuel-indexed: shroud level `0` returns the text
unchanged; otherwise hide `min(shroudLevel, floor(length/2))` randomly
chosen non-space characters behind underscores.  A `none` result means
the source's unbounded loop ran beyond the given fuel. -/
def obfuscateTextFuel (draws : Nat → Nat) (fuel : Nat) (text : List Char)
    (shroudLevel : Nat) : Option (List Char) :=
  if shroudLevel = 0 then some text
  else
    let numToHide := min shroudLevel (text.length / 2)
    match obfuscateIndicesFuel text numToHide draws fuel 0 [] with
    | none => none
    | some indices =>
      some (text.mapIdx (fun i c => if i ∈ indices then '_' else c))

/-! ### C10: the obfuscation loop does not terminate on all-space text -/

/-- C10: on the all-space input `"  "` with shroud level 1, the loop of
`obfuscateText` can never add an index (every character is a space), so no
amount of fuel — under any sequence of random draws — completes it: the
source function loops forever on this input, contradicting the claim that
it terminates on every input. -/
theorem obfuscateText_diverges_on_spaces (draws : Nat → Nat) (fuel : Nat) :
    obfuscateTextFuel draws fuel [' ', ' '] 1 = none := by
  have key : ∀ f k, obfuscateIndicesFuel [' ', ' '] 1 draws f k [] = none := by
    intro f
    induction f with
    | zero => intro k; rfl
    | succ n ih =>
      intro k
      have hsp : ([' ', ' '].getD (draws k % 2) ' ') = ' ' := by
        have hm : draws k % 2 < 2 := Nat.mod_lt _ (by norm_num)
        interval_cases h : draws k % 2 <;> rfl
      simp only [obfuscateIndicesFuel, List.length_nil, Nat.le_zero, List.length_cons]
      rw [if_neg (by omega)]
      simp only [List.length_cons, List.length_nil, hsp, ne_eq, not_true_eq_false,
        if_false, ite_self]
      exact ih (k + 1)
  have h2 : obfuscateTextFuel draws fuel [' ', ' '] 1 =
      match obfuscateIndicesFuel [' ', ' '] 1 draws fuel 0 [] with
      | none => none
      | some indices =>
        some ([' ', ' '].mapIdx (fun i c => if i ∈ indices then '_' else c)) := rfl
  rw [h2, key fuel 0]

end AdventureGame
